import Mathlib

/-!
# Device control: shared protocol constants and command-code macros

A shallow embedding of `lib_device_control/api/control_shared.h`.

* The function-like macros `IS_CONTROL_CMD_READ`, `CONTROL_CMD_SET_READ` and
  `CONTROL_CMD_SET_WRITE` are evaluated by C in type `int` (their operand, a
  `control_cmd_t`, i.e. `uint8_t`, is promoted and the literal `0x80` is an
  `int`).  They are modelled on `Int` with the two's complement bitwise
  operations `Int.land`, `Int.lor` and `Int.lnot`, so `~0x80` is `-129`.
* The `uint8_t` typedefs are modelled by the conversion `to_uint8`, reduction
  modulo `2 ^ 8`.
* The enumeration `control_ret_t` is modelled by its enumerator list together
  with the C rule that gives an enumerator without initialiser the value of
  its predecessor plus one.
* The structures `control_xscope_packet` and `control_xscope_response` are
  modelled by their member lists, laid out by the usual rule: each member at
  the next multiple of its alignment, the size rounded up to the alignment of
  the structure.  The representation of the enumerated type is a parameter.
-/

set_option maxRecDepth 100000

namespace DeviceControl

/-! ## Integer types -/

/-- Conversion of a C integer value to `uint8_t` (the type behind
`control_resid_t`, `control_cmd_t`, `control_version_t` and
`control_status_t`): the value modulo `2 ^ 8`. -/
def to_uint8 (x : Int) : Int := x % 2 ^ 8

/-! ## Object-like macros -/

/-- The version of the control protocol: `#define CONTROL_VERSION 0x10`. -/
def CONTROL_VERSION : Int := 0x10

/-- The special resource ID owned by the control library:
`#define CONTROL_SPECIAL_RESID 0`. -/
def CONTROL_SPECIAL_RESID : Int := 0

/-- The maximum resource ID: `#define CONTROL_MAX_RESOURCE_ID 255`. -/
def CONTROL_MAX_RESOURCE_ID : Int := 255

/-! ## Function-like macros on command codes -/

/-- Checks the read bit: `#define IS_CONTROL_CMD_READ(c) ((c) & 0x80)`. -/
def IS_CONTROL_CMD_READ (c : Int) : Int := Int.land c 0x80

/-- Sets the read bit: `#define CONTROL_CMD_SET_READ(c) ((c) | 0x80)`. -/
def CONTROL_CMD_SET_READ (c : Int) : Int := Int.lor c 0x80

/-- Clears the read bit: `#define CONTROL_CMD_SET_WRITE(c) ((c) & ~0x80)`. -/
def CONTROL_CMD_SET_WRITE (c : Int) : Int := Int.land c (Int.lnot 0x80)

/-- The command to read the protocol version:
`#define CONTROL_GET_VERSION CONTROL_CMD_SET_READ(0)`. -/
def CONTROL_GET_VERSION : Int := CONTROL_CMD_SET_READ 0

/-- The command to read the status of the last command:
`#define CONTROL_GET_LAST_COMMAND_STATUS CONTROL_CMD_SET_READ(1)`. -/
def CONTROL_GET_LAST_COMMAND_STATUS : Int := CONTROL_CMD_SET_READ 1

/-! ## The enumeration `control_ret_t` -/

/-- The enumerators of `control_ret_t`, in declaration order. -/
inductive control_ret_t where
  | CONTROL_SUCCESS
  | CONTROL_REGISTRATION_FAILED
  | CONTROL_BAD_COMMAND
  | CONTROL_DATA_LENGTH_ERROR
  | CONTROL_OTHER_TRANSPORT_ERROR
  | CONTROL_BAD_RESOURCE
  | CONTROL_MALFORMED_PACKET
  | CONTROL_COMMAND_IGNORED_IN_DEVICE
  | CONTROL_ERROR
  | SERVICER_COMMAND_RETRY
  | SERVICER_WRONG_COMMAND_ID
  | SERVICER_WRONG_COMMAND_LEN
  | SERVICER_WRONG_PAYLOAD
  | SERVICER_QUEUE_FULL
  | SERVICER_RESOURCE_ERROR
  deriving DecidableEq, Repr

open control_ret_t

/-- The enumerator list of the `typedef enum { ... } control_ret_t;`
declaration: each enumerator with its initialiser, when it has one.  Only
`CONTROL_SUCCESS = 0` and `SERVICER_COMMAND_RETRY = 64` carry one. -/
def control_ret_t_decl : List (control_ret_t × Option Int) :=
  [ (CONTROL_SUCCESS, some 0),
    (CONTROL_REGISTRATION_FAILED, none),
    (CONTROL_BAD_COMMAND, none),
    (CONTROL_DATA_LENGTH_ERROR, none),
    (CONTROL_OTHER_TRANSPORT_ERROR, none),
    (CONTROL_BAD_RESOURCE, none),
    (CONTROL_MALFORMED_PACKET, none),
    (CONTROL_COMMAND_IGNORED_IN_DEVICE, none),
    (CONTROL_ERROR, none),
    (SERVICER_COMMAND_RETRY, some 64),
    (SERVICER_WRONG_COMMAND_ID, none),
    (SERVICER_WRONG_COMMAND_LEN, none),
    (SERVICER_WRONG_PAYLOAD, none),
    (SERVICER_QUEUE_FULL, none),
    (SERVICER_RESOURCE_ERROR, none) ]

/-- The C rule for enumeration constants: an enumerator with an initialiser
takes that value, one without takes the value of the previous enumerator plus
one (`next`; zero for the first). -/
def enum_assign {α : Type} : Int → List (α × Option Int) → List (α × Int)
  | _, [] => []
  | _, (e, some v) :: rest => (e, v) :: enum_assign (v + 1) rest
  | next, (e, none) :: rest => (e, next) :: enum_assign (next + 1) rest

/-- The enumerators of `control_ret_t` with their values. -/
def control_ret_t_values : List (control_ret_t × Int) :=
  enum_assign 0 control_ret_t_decl

/-- The value of an enumerator of `control_ret_t`, looked up in the
declaration; `none` for an enumerator the declaration does not list. -/
def control_ret_t.value (e : control_ret_t) : Option Int :=
  control_ret_t_values.lookup e

/-- The enumerators whose identifier begins `SERVICER_` (the servicer-level
band); the others begin `CONTROL_` (the protocol-level band). -/
def control_ret_t.is_servicer_level : control_ret_t → Bool
  | SERVICER_COMMAND_RETRY => true
  | SERVICER_WRONG_COMMAND_ID => true
  | SERVICER_WRONG_COMMAND_LEN => true
  | SERVICER_WRONG_PAYLOAD => true
  | SERVICER_QUEUE_FULL => true
  | SERVICER_RESOURCE_ERROR => true
  | _ => false

/-- All fifteen enumerators of `control_ret_t`, in declaration order. -/
def control_ret_t.all : List control_ret_t :=
  control_ret_t_decl.map Prod.fst

/-! ## The xscope header structures (declared under `#if USE_XSCOPE`) -/

/-- The types of the members of the two xscope header structures. -/
inductive member_type where
  | control_resid_t
  | control_cmd_t
  | uint8_t
  | control_ret_t
  deriving DecidableEq, Repr

/-- The member names of the two xscope header structures. -/
inductive member_name where
  | resid
  | cmd
  | payload_len
  | pad
  | ret
  deriving DecidableEq, Repr

/-- The representation the C implementation gives the enumerated type
`control_ret_t`: its size and alignment in bytes.  The C standard leaves the
choice to the implementation; `uint8_t` has no such freedom. -/
structure enum_repr where
  size : Nat
  align : Nat
  deriving DecidableEq, Repr

/-- The representation of an enumerated type as an `int` of four bytes,
aligned to four bytes. -/
def enum_as_int : enum_repr := ⟨4, 4⟩

/-- The representation of an enumerated type in a single byte. -/
def enum_as_char : enum_repr := ⟨1, 1⟩

/-- The value of `sizeof` on a member type: `control_resid_t` and
`control_cmd_t` are typedefs of `uint8_t`, of size one; `control_ret_t` is the
enumerated type. -/
def member_type.sizeof (r : enum_repr) : member_type → Nat
  | .control_resid_t => 1
  | .control_cmd_t => 1
  | .uint8_t => 1
  | .control_ret_t => r.size

/-- The alignment of a member type. -/
def member_type.alignof (r : enum_repr) : member_type → Nat
  | .control_resid_t => 1
  | .control_cmd_t => 1
  | .uint8_t => 1
  | .control_ret_t => r.align

/-- The declaration `struct control_xscope_packet`: its members in order. -/
def control_xscope_packet : List (member_name × member_type) :=
  [ (.resid, .control_resid_t),
    (.cmd, .control_cmd_t),
    (.payload_len, .uint8_t),
    (.pad, .uint8_t) ]

/-- The declaration `struct control_xscope_response`: its members in order. -/
def control_xscope_response : List (member_name × member_type) :=
  [ (.resid, .control_resid_t),
    (.cmd, .control_cmd_t),
    (.payload_len, .uint8_t),
    (.ret, .control_ret_t) ]

/-- The least multiple of the alignment `a` that is at least `off`. -/
def align_up (off a : Nat) : Nat := (off + a - 1) / a * a

/-- The layout of the members of a structure from offset `off` on: each member
is placed, in declaration order, at the next offset that is a multiple of its
alignment.  The result lists each member with its offset and its size. -/
def layout_from (r : enum_repr) :
    Nat → List (member_name × member_type) → List (member_name × Nat × Nat)
  | _, [] => []
  | off, (m, t) :: rest =>
    (m, align_up off (t.alignof r), t.sizeof r) ::
      layout_from r (align_up off (t.alignof r) + t.sizeof r) rest

/-- The layout of a structure: its members with offset and size. -/
def struct_layout (r : enum_repr) (s : List (member_name × member_type)) :
    List (member_name × Nat × Nat) :=
  layout_from r 0 s

/-- The alignment of a structure: the largest alignment among its members. -/
def struct_alignof (r : enum_repr) (s : List (member_name × member_type)) : Nat :=
  s.foldl (fun a p => max a (p.2.alignof r)) 1

/-- The offset just past the last member of a laid out structure. -/
def layout_end (l : List (member_name × Nat × Nat)) : Nat :=
  l.foldl (fun _ p => p.2.1 + p.2.2) 0

/-- The value of `sizeof` on a structure: the end of its last member, rounded
up to a multiple of the alignment of the structure. -/
def struct_sizeof (r : enum_repr) (s : List (member_name × member_type)) : Nat :=
  align_up (layout_end (struct_layout r s)) (struct_alignof r s)

/-! ## Auxiliary lemmas -/

/-- Every integer in `0..=255` is the cast of a natural number below 256. -/
theorem byte_eq_natCast (c : Int) (h0 : 0 ≤ c) (h1 : c ≤ 255) :
    ∃ n : Nat, n < 256 ∧ c = (n : Int) := by
  obtain ⟨n, rfl⟩ := Int.eq_ofNat_of_zero_le h0
  exact ⟨n, by omega, rfl⟩

/-- A natural number below 256 has no bit at position 8 or above. -/
theorem testBit_byte_high (n : Nat) (hn : n < 256) (i : Nat) (hi : 8 ≤ i) :
    n.testBit i = false := by
  apply Nat.testBit_lt_two_pow
  calc n < 2 ^ 8 := by simpa using hn
    _ ≤ 2 ^ i := Nat.pow_le_pow_right (by norm_num) hi

/-- On a byte, removing the bits of 128 is masking with 127. -/
theorem ldiff_128_of_byte (n : Nat) (hn : n < 256) : Nat.ldiff n 128 = n &&& 127 := by
  apply Nat.eq_of_testBit_eq
  intro i
  rw [Nat.testBit_ldiff, Nat.testBit_land]
  have h128 : (128 : Nat) = 2 ^ 7 := by norm_num
  have h127 : (127 : Nat) = 2 ^ 7 - 1 := by norm_num
  rw [h128, h127, Nat.testBit_two_pow, Nat.testBit_two_pow_sub_one]
  by_cases h : i < 7
  · have h7 : ¬ (7 = i) := by omega
    simp [h, h7]
  · by_cases h7 : 7 = i
    · simp [h, h7]
    · have hhigh : n.testBit i = false := testBit_byte_high n hn i (by omega)
      simp [hhigh]

/-- The macro `CONTROL_CMD_SET_READ` on a byte, computed on naturals. -/
theorem set_read_byte (n : Nat) :
    CONTROL_CMD_SET_READ (n : Int) = ((n ||| 128 : Nat) : Int) := rfl

/-- The macro `IS_CONTROL_CMD_READ` on a byte, computed on naturals. -/
theorem is_read_byte (n : Nat) :
    IS_CONTROL_CMD_READ (n : Int) = ((n &&& 128 : Nat) : Int) := rfl

/-- The macro `CONTROL_CMD_SET_WRITE` on a byte, computed on naturals. -/
theorem set_write_byte (n : Nat) (hn : n < 256) :
    CONTROL_CMD_SET_WRITE (n : Int) = ((n &&& 127 : Nat) : Int) := by
  show ((Nat.ldiff n 128 : Nat) : Int) = _
  rw [ldiff_128_of_byte n hn]

/-- Masking an integer byte with `0x7F`, computed on naturals. -/
theorem land_7F_byte (n : Nat) : Int.land (n : Int) 0x7F = ((n &&& 127 : Nat) : Int) := rfl

/-- Bitwise facts about bytes, checked by evaluation on all 256 values:
setting bit 7 keeps a byte a byte in `128..=255` and leaves the low seven bits,
the low seven bits are the remainder modulo 128 and lie in `0..=127`, and
masking with 128 gives zero below 128 and 128 from 128 on. -/
theorem byte_bit_facts : ∀ n : Nat, n < 256 →
    128 ≤ n ||| 128 ∧ n ||| 128 < 256 ∧
    (n ||| 128) &&& 127 = n &&& 127 ∧
    n &&& 127 = n % 128 ∧ n &&& 127 < 128 ∧
    (n ||| 128) &&& 128 = 128 ∧ (n &&& 127) &&& 128 = 0 ∧
    (n &&& 127) &&& 127 = n &&& 127 ∧
    (n &&& 127) ||| 128 = n ||| 128 ∧ (n ||| 128) ||| 128 = n ||| 128 ∧
    (n < 128 → n &&& 128 = 0) ∧ (128 ≤ n → n &&& 128 = 128) ∧
    n.testBit 7 = decide (128 ≤ n) := by
  decide

/-! ## Command-code macros: read/write flag -/

/-- C1: for every command code `c` in `0..=255`,
`CONTROL_CMD_SET_WRITE(CONTROL_CMD_SET_READ(c))` is the original `c` with
bit 7 cleared: it equals `c & 0x7F`, equivalently `c % 128`, and bit by bit
it has bit 7 clear and every other bit as in `c`. -/
theorem set_write_of_set_read (c : Int) (h0 : 0 ≤ c) (h1 : c ≤ 255) :
    CONTROL_CMD_SET_WRITE (CONTROL_CMD_SET_READ c) = Int.land c 0x7F ∧
    CONTROL_CMD_SET_WRITE (CONTROL_CMD_SET_READ c) = c % 128 ∧
    ∀ i : Nat, Int.testBit (CONTROL_CMD_SET_WRITE (CONTROL_CMD_SET_READ c)) i
      = (decide (i ≠ 7) && Int.testBit c i) := by
  obtain ⟨n, hn, rfl⟩ := byte_eq_natCast c h0 h1
  obtain ⟨-, hor, hmask, hmod, -⟩ := byte_bit_facts n hn
  have hval : CONTROL_CMD_SET_WRITE (CONTROL_CMD_SET_READ (n : Int))
      = ((n &&& 127 : Nat) : Int) := by
    rw [set_read_byte, set_write_byte _ hor, hmask]
  refine ⟨?_, ?_, ?_⟩
  · rw [hval, land_7F_byte]
  · rw [hval, hmod]; rfl
  · intro i
    rw [hval]
    show (n &&& 127).testBit i = (decide (i ≠ 7) && n.testBit i)
    have h127 : (127 : Nat) = 2 ^ 7 - 1 := by norm_num
    rw [Nat.testBit_land, h127, Nat.testBit_two_pow_sub_one]
    by_cases h : i < 7
    · have h7 : i ≠ 7 := by omega
      simp [h, h7]
    · by_cases h7 : i = 7
      · simp [h7]
      · have hhigh : n.testBit i = false := testBit_byte_high n hn i (by omega)
        simp [hhigh]

/-- Witness for C1 at the read-flagged command code `0x85`. -/
theorem set_write_of_set_read_witness :
    (0 : Int) ≤ 0x85 ∧ (0x85 : Int) ≤ 255 ∧
    (CONTROL_CMD_SET_WRITE (CONTROL_CMD_SET_READ 0x85) = Int.land 0x85 0x7F ∧
     CONTROL_CMD_SET_WRITE (CONTROL_CMD_SET_READ 0x85) = 0x85 % 128 ∧
     ∀ i : Nat, Int.testBit (CONTROL_CMD_SET_WRITE (CONTROL_CMD_SET_READ 0x85)) i
       = (decide (i ≠ 7) && Int.testBit 0x85 i)) :=
  ⟨by decide, by decide, set_write_of_set_read 0x85 (by decide) (by decide)⟩

/-- C2: for every command code `c` in `0..=255`, `IS_CONTROL_CMD_READ(c)` is
non-zero (true as a C condition) exactly when bit 7 of `c` is set, which is
exactly when `c >= 128`, and is zero otherwise. -/
theorem is_read_iff_bit7 (c : Int) (h0 : 0 ≤ c) (h1 : c ≤ 255) :
    (IS_CONTROL_CMD_READ c ≠ 0 ↔ Int.testBit c 7 = true) ∧
    (IS_CONTROL_CMD_READ c ≠ 0 ↔ 128 ≤ c) ∧
    (IS_CONTROL_CMD_READ c = 0 ↔ c < 128) := by
  obtain ⟨n, hn, rfl⟩ := byte_eq_natCast c h0 h1
  obtain ⟨-, -, -, -, -, -, -, -, -, -, hlo, hhi, hbit⟩ := byte_bit_facts n hn
  rw [is_read_byte]
  have hb : Int.testBit (n : Int) 7 = decide (128 ≤ n) := hbit
  rw [hb]
  by_cases h : 128 ≤ n
  · rw [hhi h]
    have hc : (128 : Int) ≤ (n : Int) := by exact_mod_cast h
    have hd : ¬ ((n : Int) < 128) := by omega
    simp [h, hc, hd]
  · rw [hlo (by omega)]
    have hc : ¬ ((128 : Int) ≤ (n : Int)) := by omega
    have hd : (n : Int) < 128 := by omega
    simp [h, hc, hd]

/-- Witness for C2 at the command code `0x81`. -/
theorem is_read_iff_bit7_witness :
    (0 : Int) ≤ 0x81 ∧ (0x81 : Int) ≤ 255 ∧
    ((IS_CONTROL_CMD_READ 0x81 ≠ 0 ↔ Int.testBit 0x81 7 = true) ∧
     (IS_CONTROL_CMD_READ 0x81 ≠ 0 ↔ (128 : Int) ≤ 0x81) ∧
     (IS_CONTROL_CMD_READ 0x81 = 0 ↔ (0x81 : Int) < 128)) :=
  ⟨by decide, by decide, is_read_iff_bit7 0x81 (by decide) (by decide)⟩

/-- C3: for every command code `c` in `0..=255`, neither
`CONTROL_CMD_SET_READ` nor `CONTROL_CMD_SET_WRITE` alters the low seven bits:
masking either result with `0x7F` gives `c & 0x7F`. -/
theorem set_read_set_write_keep_low_bits (c : Int) (h0 : 0 ≤ c) (h1 : c ≤ 255) :
    Int.land (CONTROL_CMD_SET_READ c) 0x7F = Int.land c 0x7F ∧
    Int.land (CONTROL_CMD_SET_WRITE c) 0x7F = Int.land c 0x7F := by
  obtain ⟨n, hn, rfl⟩ := byte_eq_natCast c h0 h1
  obtain ⟨-, -, hmask, -, -, -, -, hidem, -⟩ := byte_bit_facts n hn
  constructor
  · rw [set_read_byte, land_7F_byte, land_7F_byte, hmask]
  · rw [set_write_byte n hn, land_7F_byte, land_7F_byte, hidem]

/-- Witness for C3 at the command code `0xC3`. -/
theorem set_read_set_write_keep_low_bits_witness :
    (0 : Int) ≤ 0xC3 ∧ (0xC3 : Int) ≤ 255 ∧
    (Int.land (CONTROL_CMD_SET_READ 0xC3) 0x7F = Int.land 0xC3 0x7F ∧
     Int.land (CONTROL_CMD_SET_WRITE 0xC3) 0x7F = Int.land 0xC3 0x7F) :=
  ⟨by decide, by decide,
    set_read_set_write_keep_low_bits 0xC3 (by decide) (by decide)⟩

/-- C4: for every command code `c` in `0..=255`, `CONTROL_CMD_SET_READ(c)` has
the read bit set (`IS_CONTROL_CMD_READ` of it is non-zero) and lies in
`128..=255`, `CONTROL_CMD_SET_WRITE(c)` has the read bit clear
(`IS_CONTROL_CMD_READ` of it is zero) and lies in `0..=127`, and converting
either result to the 8-bit `control_cmd_t` leaves it unchanged. -/
theorem set_read_set_write_flag (c : Int) (h0 : 0 ≤ c) (h1 : c ≤ 255) :
    (IS_CONTROL_CMD_READ (CONTROL_CMD_SET_READ c) ≠ 0 ∧
      128 ≤ CONTROL_CMD_SET_READ c ∧ CONTROL_CMD_SET_READ c ≤ 255) ∧
    (IS_CONTROL_CMD_READ (CONTROL_CMD_SET_WRITE c) = 0 ∧
      0 ≤ CONTROL_CMD_SET_WRITE c ∧ CONTROL_CMD_SET_WRITE c ≤ 127) ∧
    to_uint8 (CONTROL_CMD_SET_READ c) = CONTROL_CMD_SET_READ c ∧
    to_uint8 (CONTROL_CMD_SET_WRITE c) = CONTROL_CMD_SET_WRITE c := by
  obtain ⟨n, hn, rfl⟩ := byte_eq_natCast c h0 h1
  obtain ⟨hge, hlt, -, -, hlow, hset, hclr, -⟩ := byte_bit_facts n hn
  rw [set_read_byte, set_write_byte n hn, is_read_byte, is_read_byte, hset, hclr]
  have hr0 : (128 : Int) ≤ ((n ||| 128 : Nat) : Int) := by exact_mod_cast hge
  have hr1 : ((n ||| 128 : Nat) : Int) ≤ 255 := by
    have : n ||| 128 ≤ 255 := by omega
    exact_mod_cast this
  have hw0 : (0 : Int) ≤ ((n &&& 127 : Nat) : Int) := Int.ofNat_nonneg _
  have hw1 : ((n &&& 127 : Nat) : Int) ≤ 127 := by
    have : n &&& 127 ≤ 127 := by omega
    exact_mod_cast this
  refine ⟨⟨by decide, hr0, hr1⟩, ⟨rfl, hw0, hw1⟩, ?_, ?_⟩
  · unfold to_uint8
    omega
  · unfold to_uint8
    omega

/-- Witness for C4 at the command code `0x2A`. -/
theorem set_read_set_write_flag_witness :
    (0 : Int) ≤ 0x2A ∧ (0x2A : Int) ≤ 255 ∧
    ((IS_CONTROL_CMD_READ (CONTROL_CMD_SET_READ 0x2A) ≠ 0 ∧
      128 ≤ CONTROL_CMD_SET_READ 0x2A ∧ CONTROL_CMD_SET_READ 0x2A ≤ 255) ∧
     (IS_CONTROL_CMD_READ (CONTROL_CMD_SET_WRITE 0x2A) = 0 ∧
      0 ≤ CONTROL_CMD_SET_WRITE 0x2A ∧ CONTROL_CMD_SET_WRITE 0x2A ≤ 127) ∧
     to_uint8 (CONTROL_CMD_SET_READ 0x2A) = CONTROL_CMD_SET_READ 0x2A ∧
     to_uint8 (CONTROL_CMD_SET_WRITE 0x2A) = CONTROL_CMD_SET_WRITE 0x2A) :=
  ⟨by decide, by decide, set_read_set_write_flag 0x2A (by decide) (by decide)⟩

/-- C5: `CONTROL_GET_VERSION` is read-flagged command 0 and
`CONTROL_GET_LAST_COMMAND_STATUS` is read-flagged command 1: their values are
`0x80` and `0x81`, `IS_CONTROL_CMD_READ` is non-zero on both,
`CONTROL_CMD_SET_WRITE` maps them to 0 and 1, and the two codes differ. -/
theorem get_version_get_last_command_status :
    CONTROL_GET_VERSION = 0x80 ∧ CONTROL_GET_LAST_COMMAND_STATUS = 0x81 ∧
    IS_CONTROL_CMD_READ CONTROL_GET_VERSION ≠ 0 ∧
    IS_CONTROL_CMD_READ CONTROL_GET_LAST_COMMAND_STATUS ≠ 0 ∧
    CONTROL_CMD_SET_WRITE CONTROL_GET_VERSION = 0 ∧
    CONTROL_CMD_SET_WRITE CONTROL_GET_LAST_COMMAND_STATUS = 1 ∧
    CONTROL_GET_VERSION ≠ CONTROL_GET_LAST_COMMAND_STATUS := by
  have hv : CONTROL_GET_VERSION = ((128 : Nat) : Int) := by decide
  have hs : CONTROL_GET_LAST_COMMAND_STATUS = ((129 : Nat) : Int) := by decide
  refine ⟨by decide, by decide, by decide, by decide, ?_, ?_, by decide⟩
  · rw [hv, set_write_byte 128 (by decide)]; decide
  · rw [hs, set_write_byte 129 (by decide)]; decide

/-! ## Status codes -/

/-- C6: the protocol-level status codes of `control_ret_t` take the values
`0..=8` in declaration order, from `CONTROL_SUCCESS = 0` up to
`CONTROL_ERROR = 8`, and these nine are exactly the enumerators with a value
in `0..=8`. -/
theorem protocol_level_values :
    CONTROL_SUCCESS.value = some 0 ∧
    CONTROL_REGISTRATION_FAILED.value = some 1 ∧
    CONTROL_BAD_COMMAND.value = some 2 ∧
    CONTROL_DATA_LENGTH_ERROR.value = some 3 ∧
    CONTROL_OTHER_TRANSPORT_ERROR.value = some 4 ∧
    CONTROL_BAD_RESOURCE.value = some 5 ∧
    CONTROL_MALFORMED_PACKET.value = some 6 ∧
    CONTROL_COMMAND_IGNORED_IN_DEVICE.value = some 7 ∧
    CONTROL_ERROR.value = some 8 ∧
    (control_ret_t_values.filter (fun p => decide (0 ≤ p.2 ∧ p.2 ≤ 8))).map Prod.snd
      = [0, 1, 2, 3, 4, 5, 6, 7, 8] ∧
    (control_ret_t_values.filter (fun p => !p.1.is_servicer_level)).map Prod.snd
      = [0, 1, 2, 3, 4, 5, 6, 7, 8] := by
  decide

/-- C7: the servicer-level status codes of `control_ret_t` take the values
`64..=69` in declaration order, from `SERVICER_COMMAND_RETRY = 64` up to
`SERVICER_RESOURCE_ERROR = 69`, and these six are exactly the enumerators with
a value in `64..=69`. -/
theorem servicer_level_values :
    SERVICER_COMMAND_RETRY.value = some 64 ∧
    SERVICER_WRONG_COMMAND_ID.value = some 65 ∧
    SERVICER_WRONG_COMMAND_LEN.value = some 66 ∧
    SERVICER_WRONG_PAYLOAD.value = some 67 ∧
    SERVICER_QUEUE_FULL.value = some 68 ∧
    SERVICER_RESOURCE_ERROR.value = some 69 ∧
    (control_ret_t_values.filter (fun p => decide (64 ≤ p.2 ∧ p.2 ≤ 69))).map Prod.snd
      = [64, 65, 66, 67, 68, 69] ∧
    (control_ret_t_values.filter (fun p => p.1.is_servicer_level)).map Prod.snd
      = [64, 65, 66, 67, 68, 69] := by
  decide

/-- C8: the status code is an 8-bit enumeration with two disjoint bands.
There are fifteen enumerators; each has a value in `0..=255`, which the
conversion to the 8-bit `control_status_t` preserves; no two enumerators share
a value; every protocol-level (`CONTROL_*`) value is below 64 and every
servicer-level (`SERVICER_*`) value is at least 64, so a protocol-level and a
servicer-level enumerator never have the same value. -/
theorem status_code_bands :
    control_ret_t.all.length = 15 ∧
    (∀ e : control_ret_t, e ∈ control_ret_t.all) ∧
    (∀ e : control_ret_t, ∃ v : Int, e.value = some v ∧ 0 ≤ v ∧ v ≤ 255 ∧
      to_uint8 v = v) ∧
    (∀ a b : control_ret_t, a.value = b.value → a = b) ∧
    (∀ e : control_ret_t, ∀ v : Int, e.value = some v →
      (e.is_servicer_level = false → v < 64) ∧
      (e.is_servicer_level = true → 64 ≤ v)) ∧
    (∀ a b : control_ret_t, a.is_servicer_level = false →
      b.is_servicer_level = true → a.value ≠ b.value) := by
  refine ⟨by decide, ?_, ?_, ?_, ?_, ?_⟩
  · intro e; cases e <;> decide
  · intro e; cases e <;> exact ⟨_, rfl, by decide, by decide, by decide⟩
  · intro a b; cases a <;> cases b <;> decide
  · intro e v h
    cases e <;> cases h <;> decide
  · intro a b; cases a <;> cases b <;> decide

/-! ## Resource identifiers and version -/

/-- C9: `CONTROL_SPECIAL_RESID` is 0 and `CONTROL_MAX_RESOURCE_ID` is 255, so
every 8-bit `control_resid_t` value `r` satisfies
`r <= CONTROL_MAX_RESOURCE_ID`, and `r` is registrable
(`r != CONTROL_SPECIAL_RESID` and `r <= CONTROL_MAX_RESOURCE_ID`) exactly when
`1 <= r <= 255`; exactly 255 of the 256 values of the type are registrable. -/
theorem resid_registrable_range (r : Int) (h0 : 0 ≤ r) (h1 : r ≤ 255) :
    CONTROL_SPECIAL_RESID = 0 ∧ CONTROL_MAX_RESOURCE_ID = 255 ∧
    r ≤ CONTROL_MAX_RESOURCE_ID ∧ to_uint8 r = r ∧
    ((r ≠ CONTROL_SPECIAL_RESID ∧ r ≤ CONTROL_MAX_RESOURCE_ID) ↔ (1 ≤ r ∧ r ≤ 255)) ∧
    ((List.range 256).filter (fun n : Nat =>
        decide ((n : Int) ≠ CONTROL_SPECIAL_RESID ∧ (n : Int) ≤ CONTROL_MAX_RESOURCE_ID))
      = (List.range 256).tail) ∧
    ((List.range 256).filter (fun n : Nat =>
        decide ((n : Int) ≠ CONTROL_SPECIAL_RESID ∧ (n : Int) ≤ CONTROL_MAX_RESOURCE_ID))).length
      = 255 := by
  refine ⟨rfl, rfl, h1, ?_, ?_, by decide, by decide⟩
  · unfold to_uint8
    omega
  · unfold CONTROL_SPECIAL_RESID CONTROL_MAX_RESOURCE_ID
    omega

/-- Witness for C9 at the resource ID 5. -/
theorem resid_registrable_range_witness :
    (0 : Int) ≤ 5 ∧ (5 : Int) ≤ 255 ∧
    (CONTROL_SPECIAL_RESID = 0 ∧ CONTROL_MAX_RESOURCE_ID = 255 ∧
     (5 : Int) ≤ CONTROL_MAX_RESOURCE_ID ∧ to_uint8 5 = 5 ∧
     (((5 : Int) ≠ CONTROL_SPECIAL_RESID ∧ (5 : Int) ≤ CONTROL_MAX_RESOURCE_ID) ↔
       ((1 : Int) ≤ 5 ∧ (5 : Int) ≤ 255)) ∧
     ((List.range 256).filter (fun n : Nat =>
         decide ((n : Int) ≠ CONTROL_SPECIAL_RESID ∧ (n : Int) ≤ CONTROL_MAX_RESOURCE_ID))
       = (List.range 256).tail) ∧
     ((List.range 256).filter (fun n : Nat =>
         decide ((n : Int) ≠ CONTROL_SPECIAL_RESID ∧ (n : Int) ≤ CONTROL_MAX_RESOURCE_ID))).length
       = 255) :=
  ⟨by decide, by decide, resid_registrable_range 5 (by decide) (by decide)⟩

/-- C10: the protocol version constant `CONTROL_VERSION` equals `0x10`
(decimal 16) and is representable in the 8-bit `control_version_t`: converting
it to that type yields `0x10` again. -/
theorem control_version_value :
    CONTROL_VERSION = 0x10 ∧ CONTROL_VERSION = 16 ∧
    0 ≤ CONTROL_VERSION ∧ CONTROL_VERSION ≤ 255 ∧
    to_uint8 CONTROL_VERSION = CONTROL_VERSION ∧
    to_uint8 CONTROL_VERSION = 0x10 := by
  decide

/-! ## The xscope header structures -/

/-- Rounding up to a positive alignment does not go below the offset. -/
theorem le_align_up (x a : Nat) (ha : 1 ≤ a) : x ≤ align_up x a := by
  unfold align_up
  have hdm := Nat.div_add_mod (x + a - 1) a
  have hlt := Nat.mod_lt (x + a - 1) (show a > 0 by omega)
  rw [Nat.mul_comm] at hdm
  omega

/-- Rounding up to an alignment gives a multiple of the alignment. -/
theorem dvd_align_up (x a : Nat) : a ∣ align_up x a :=
  Dvd.intro_left _ rfl

/-- The request header is 4 bytes under every representation of enumerated
types: none of its members has an enumerated type. -/
theorem xscope_packet_sizeof_aux (r : enum_repr) :
    struct_sizeof r control_xscope_packet = 4 := by
  simp [struct_sizeof, struct_alignof, layout_end, struct_layout, layout_from,
    control_xscope_packet, member_type.alignof, member_type.sizeof, align_up]

/-- C11: the xscope request header `struct control_xscope_packet` has exactly
four members, in the order resource ID, command, payload length, pad; each is
one byte, they lie at the offsets 0, 1, 2 and 3, and the structure is 4 bytes
in size, whatever the representation of enumerated types. -/
theorem xscope_packet_layout (r : enum_repr) :
    control_xscope_packet.map Prod.fst
      = [member_name.resid, member_name.cmd, member_name.payload_len, member_name.pad] ∧
    (∀ p ∈ control_xscope_packet, p.2.sizeof r = 1) ∧
    struct_layout r control_xscope_packet
      = [(member_name.resid, 0, 1), (member_name.cmd, 1, 1),
         (member_name.payload_len, 2, 1), (member_name.pad, 3, 1)] ∧
    struct_sizeof r control_xscope_packet = 4 := by
  refine ⟨by decide, ?_, ?_, ?_⟩
  · simp [control_xscope_packet, member_type.sizeof]
  · simp [struct_layout, layout_from, control_xscope_packet, member_type.alignof,
      member_type.sizeof, align_up]
  · simp [struct_sizeof, struct_alignof, layout_end, struct_layout, layout_from,
      control_xscope_packet, member_type.alignof, member_type.sizeof, align_up]

/-- C12, as stated, fails: where the enumerated type `control_ret_t` is
represented as a four-byte `int`, the member `ret` of
`struct control_xscope_response` is four bytes at offset 4, not a single byte,
and the structure is 8 bytes, not the 4 bytes of the request header. -/
theorem xscope_response_not_four_bytes :
    struct_layout enum_as_int control_xscope_response
      = [(member_name.resid, 0, 1), (member_name.cmd, 1, 1),
         (member_name.payload_len, 2, 1), (member_name.ret, 4, 4)] ∧
    struct_sizeof enum_as_int control_xscope_response = 8 ∧
    struct_sizeof enum_as_int control_xscope_packet = 4 ∧
    ¬ (member_type.sizeof enum_as_int member_type.control_ret_t = 1 ∧
       struct_sizeof enum_as_int control_xscope_response
         = struct_sizeof enum_as_int control_xscope_packet) := by
  decide

/-- C12, amended: the xscope response header `struct control_xscope_response`
has the members resource ID, command and payload length, each one byte, in the
same order and at the same offsets 0, 1, 2 as in the request header, followed
by the member `ret` of the enumerated type `control_ret_t`, whose size and
alignment are those the implementation gives that type.  The structure has the
4-byte size of the request header exactly when `control_ret_t` is represented
in one byte with alignment one. -/
theorem xscope_response_layout (r : enum_repr) (hs : 1 ≤ r.size) (ha : 1 ≤ r.align) :
    control_xscope_response.map Prod.fst
      = [member_name.resid, member_name.cmd, member_name.payload_len, member_name.ret] ∧
    control_xscope_response.lookup member_name.ret = some member_type.control_ret_t ∧
    struct_layout r control_xscope_response
      = [(member_name.resid, 0, 1), (member_name.cmd, 1, 1),
         (member_name.payload_len, 2, 1), (member_name.ret, align_up 3 r.align, r.size)] ∧
    (struct_layout r control_xscope_response).take 3
      = (struct_layout r control_xscope_packet).take 3 ∧
    struct_sizeof r control_xscope_response
      = align_up (align_up 3 r.align + r.size) r.align ∧
    (struct_sizeof r control_xscope_response = struct_sizeof r control_xscope_packet
      ↔ r.size = 1 ∧ r.align = 1) := by
  have hlay : struct_layout r control_xscope_response
      = [(member_name.resid, 0, 1), (member_name.cmd, 1, 1),
         (member_name.payload_len, 2, 1), (member_name.ret, align_up 3 r.align, r.size)] := by
    simp [struct_layout, layout_from, control_xscope_response, member_type.alignof,
      member_type.sizeof, align_up]
  have hsize : struct_sizeof r control_xscope_response
      = align_up (align_up 3 r.align + r.size) r.align := by
    have hal : struct_alignof r control_xscope_response = r.align := by
      simp [struct_alignof, control_xscope_response, member_type.alignof]
      omega
    unfold struct_sizeof
    rw [hal, hlay]
    simp [layout_end]
  have hpkt : struct_sizeof r control_xscope_packet = 4 := xscope_packet_sizeof_aux r
  refine ⟨by decide, by decide, hlay, ?_, hsize, ?_⟩
  · rw [hlay]
    simp [struct_layout, layout_from, control_xscope_packet, member_type.alignof,
      member_type.sizeof, align_up]
  · rw [hsize, hpkt]
    constructor
    · intro h
      have h3 : 3 ≤ align_up 3 r.align := le_align_up 3 r.align ha
      have hle : align_up 3 r.align + r.size
          ≤ align_up (align_up 3 r.align + r.size) r.align := le_align_up _ _ ha
      have hd3 : r.align ∣ align_up 3 r.align := dvd_align_up 3 r.align
      have hd4 : r.align ∣ align_up (align_up 3 r.align + r.size) r.align :=
        dvd_align_up _ _
      rw [h] at hle hd4
      have ho : align_up 3 r.align = 3 := by omega
      rw [ho] at hd3
      have hd1 : r.align ∣ 4 - 3 := Nat.dvd_sub' hd4 hd3
      have ha1 : r.align = 1 := Nat.dvd_one.mp hd1
      exact ⟨by omega, ha1⟩
    · rintro ⟨h1, h2⟩
      rw [h1, h2]
      decide

/-- Witness for the amended C12 at the one-byte representation of
`control_ret_t`, where the response header is 4 bytes. -/
theorem xscope_response_layout_witness :
    1 ≤ enum_as_char.size ∧ 1 ≤ enum_as_char.align ∧
    (control_xscope_response.map Prod.fst
      = [member_name.resid, member_name.cmd, member_name.payload_len, member_name.ret] ∧
    control_xscope_response.lookup member_name.ret = some member_type.control_ret_t ∧
    struct_layout enum_as_char control_xscope_response
      = [(member_name.resid, 0, 1), (member_name.cmd, 1, 1),
         (member_name.payload_len, 2, 1),
         (member_name.ret, align_up 3 enum_as_char.align, enum_as_char.size)] ∧
    (struct_layout enum_as_char control_xscope_response).take 3
      = (struct_layout enum_as_char control_xscope_packet).take 3 ∧
    struct_sizeof enum_as_char control_xscope_response
      = align_up (align_up 3 enum_as_char.align + enum_as_char.size) enum_as_char.align ∧
    (struct_sizeof enum_as_char control_xscope_response
        = struct_sizeof enum_as_char control_xscope_packet
      ↔ enum_as_char.size = 1 ∧ enum_as_char.align = 1)) :=
  ⟨by decide, by decide, xscope_response_layout enum_as_char (by decide) (by decide)⟩

/-! ## Command-code macros: further behaviour -/

/-- Further bitwise facts about bytes, checked by evaluation on all 256
values: masking with 128 gives 0 or 128 and never 1, the low seven bits of a
value below 128 are the value itself, and setting bit 7 of a value from 128 on
changes nothing. -/
theorem byte_flag_facts : ∀ n : Nat, n < 256 →
    (n &&& 128 = 0 ∨ n &&& 128 = 128) ∧ n &&& 128 ≠ 1 ∧
    (n < 128 → n &&& 127 = n) ∧ (128 ≤ n → n ||| 128 = n) ∧
    n &&& 127 < 256 := by
  decide

/-- Clearing the read bit after setting it gives back a code below 128. -/
theorem set_write_set_read_low (n : Nat) (hn : n < 128) :
    CONTROL_CMD_SET_WRITE (CONTROL_CMD_SET_READ (n : Int)) = (n : Int) := by
  have hb : n < 256 := by omega
  obtain ⟨-, hor, hmask, -⟩ := byte_bit_facts n hb
  obtain ⟨-, -, hlow, -⟩ := byte_flag_facts n hb
  rw [set_read_byte, set_write_byte _ hor, hmask, hlow hn]

/-- C13: for every command code `c` in `0..=255`, the numeric value of
`IS_CONTROL_CMD_READ(c)` is exactly `c & 0x80`: it is 0 or 128 (128 exactly
when `c >= 128`), and it is never the integer 1. -/
theorem is_read_value (c : Int) (h0 : 0 ≤ c) (h1 : c ≤ 255) :
    IS_CONTROL_CMD_READ c = Int.land c 0x80 ∧
    (IS_CONTROL_CMD_READ c = 0 ∨ IS_CONTROL_CMD_READ c = 128) ∧
    (IS_CONTROL_CMD_READ c = 128 ↔ 128 ≤ c) ∧
    IS_CONTROL_CMD_READ c ≠ 1 := by
  obtain ⟨n, hn, rfl⟩ := byte_eq_natCast c h0 h1
  obtain ⟨-, -, -, -, -, -, -, -, -, -, hlo, hhi, -⟩ := byte_bit_facts n hn
  obtain ⟨h01, hne, -⟩ := byte_flag_facts n hn
  refine ⟨rfl, ?_, ?_, ?_⟩
  · rw [is_read_byte]
    rcases h01 with h | h
    · left; rw [h]; rfl
    · right; rw [h]; rfl
  · rw [is_read_byte]
    by_cases h : 128 ≤ n
    · rw [hhi h]
      have hc : (128 : Int) ≤ (n : Int) := by exact_mod_cast h
      simp [hc]
    · rw [hlo (by omega)]
      have hc : ¬ ((128 : Int) ≤ (n : Int)) := by omega
      simp [hc]
  · rw [is_read_byte]
    intro h
    exact hne (by exact_mod_cast h)

/-- Witness for C13 at the read-flagged command code `0x81`. -/
theorem is_read_value_witness :
    (0 : Int) ≤ 0x81 ∧ (0x81 : Int) ≤ 255 ∧
    (IS_CONTROL_CMD_READ 0x81 = Int.land 0x81 0x80 ∧
     (IS_CONTROL_CMD_READ 0x81 = 0 ∨ IS_CONTROL_CMD_READ 0x81 = 128) ∧
     (IS_CONTROL_CMD_READ 0x81 = 128 ↔ (128 : Int) ≤ 0x81) ∧
     IS_CONTROL_CMD_READ 0x81 ≠ 1) :=
  ⟨by decide, by decide, is_read_value 0x81 (by decide) (by decide)⟩

/-- C14: for every command code `c` in `0..=255`, `CONTROL_CMD_SET_READ` and
`CONTROL_CMD_SET_WRITE` are idempotent and the last one applied wins:
`SET_READ(SET_READ(c)) = SET_READ(c)`, `SET_WRITE(SET_WRITE(c)) = SET_WRITE(c)`,
`SET_READ(SET_WRITE(c)) = SET_READ(c)` and
`SET_WRITE(SET_READ(c)) = SET_WRITE(c)`. -/
theorem set_read_set_write_idempotent (c : Int) (h0 : 0 ≤ c) (h1 : c ≤ 255) :
    CONTROL_CMD_SET_READ (CONTROL_CMD_SET_READ c) = CONTROL_CMD_SET_READ c ∧
    CONTROL_CMD_SET_WRITE (CONTROL_CMD_SET_WRITE c) = CONTROL_CMD_SET_WRITE c ∧
    CONTROL_CMD_SET_READ (CONTROL_CMD_SET_WRITE c) = CONTROL_CMD_SET_READ c ∧
    CONTROL_CMD_SET_WRITE (CONTROL_CMD_SET_READ c) = CONTROL_CMD_SET_WRITE c := by
  obtain ⟨n, hn, rfl⟩ := byte_eq_natCast c h0 h1
  obtain ⟨-, hor, hmask, -, -, -, -, hww, hrw, hrr, -⟩ := byte_bit_facts n hn
  obtain ⟨-, -, -, -, hand⟩ := byte_flag_facts n hn
  refine ⟨?_, ?_, ?_, ?_⟩
  · rw [set_read_byte, set_read_byte, hrr]
  · rw [set_write_byte n hn, set_write_byte _ hand, hww]
  · rw [set_write_byte n hn, set_read_byte, set_read_byte, hrw]
  · rw [set_read_byte, set_write_byte _ hor, set_write_byte n hn, hmask]

/-- Witness for C14 at the command code `0xB6`. -/
theorem set_read_set_write_idempotent_witness :
    (0 : Int) ≤ 0xB6 ∧ (0xB6 : Int) ≤ 255 ∧
    (CONTROL_CMD_SET_READ (CONTROL_CMD_SET_READ 0xB6) = CONTROL_CMD_SET_READ 0xB6 ∧
     CONTROL_CMD_SET_WRITE (CONTROL_CMD_SET_WRITE 0xB6) = CONTROL_CMD_SET_WRITE 0xB6 ∧
     CONTROL_CMD_SET_READ (CONTROL_CMD_SET_WRITE 0xB6) = CONTROL_CMD_SET_READ 0xB6 ∧
     CONTROL_CMD_SET_WRITE (CONTROL_CMD_SET_READ 0xB6) = CONTROL_CMD_SET_WRITE 0xB6) :=
  ⟨by decide, by decide, set_read_set_write_idempotent 0xB6 (by decide) (by decide)⟩

/-- C15: read-flagging is a lossless round trip on 7-bit operation codes.  For
all `c` and `d` in `0..=127`, `CONTROL_CMD_SET_WRITE(CONTROL_CMD_SET_READ(c))`
is `c`, and `CONTROL_CMD_SET_READ` is injective there: `c` and `d` have the
same read command only when they are equal.  For every `e` in `128..=255`,
`CONTROL_CMD_SET_READ(CONTROL_CMD_SET_WRITE(e))` is `e`. -/
theorem read_flag_round_trip (c d e : Int)
    (hc0 : 0 ≤ c) (hc1 : c ≤ 127) (hd0 : 0 ≤ d) (hd1 : d ≤ 127)
    (he0 : 128 ≤ e) (he1 : e ≤ 255) :
    CONTROL_CMD_SET_WRITE (CONTROL_CMD_SET_READ c) = c ∧
    (CONTROL_CMD_SET_READ c = CONTROL_CMD_SET_READ d ↔ c = d) ∧
    CONTROL_CMD_SET_READ (CONTROL_CMD_SET_WRITE e) = e := by
  obtain ⟨n, hn, rfl⟩ := byte_eq_natCast c hc0 (by omega)
  obtain ⟨m, hm, rfl⟩ := byte_eq_natCast d hd0 (by omega)
  obtain ⟨k, hk, rfl⟩ := byte_eq_natCast e (by omega) he1
  have hn7 : n < 128 := by omega
  have hm7 : m < 128 := by omega
  have hk7 : 128 ≤ k := by omega
  have hrn := set_write_set_read_low n hn7
  have hrm := set_write_set_read_low m hm7
  refine ⟨hrn, ⟨?_, ?_⟩, ?_⟩
  · intro h
    rw [← hrn, ← hrm, h]
  · intro h
    rw [h]
  · obtain ⟨-, -, -, -, -, -, -, -, hrw, -⟩ := byte_bit_facts k hk
    obtain ⟨-, -, -, hhigh, -⟩ := byte_flag_facts k hk
    rw [set_write_byte k hk, set_read_byte, hrw, hhigh hk7]

/-- Witness for C15 at the operation codes 5 and 9 and the read command
`0x85`. -/
theorem read_flag_round_trip_witness :
    (0 : Int) ≤ 5 ∧ (5 : Int) ≤ 127 ∧ (0 : Int) ≤ 9 ∧ (9 : Int) ≤ 127 ∧
    (128 : Int) ≤ 0x85 ∧ (0x85 : Int) ≤ 255 ∧
    (CONTROL_CMD_SET_WRITE (CONTROL_CMD_SET_READ 5) = 5 ∧
     (CONTROL_CMD_SET_READ 5 = CONTROL_CMD_SET_READ 9 ↔ (5 : Int) = 9) ∧
     CONTROL_CMD_SET_READ (CONTROL_CMD_SET_WRITE 0x85) = 0x85) :=
  ⟨by decide, by decide, by decide, by decide, by decide, by decide,
    read_flag_round_trip 5 9 0x85 (by decide) (by decide) (by decide) (by decide)
      (by decide) (by decide)⟩

end DeviceControl
